import Mathlib

/-!
Shallow embedding of `scripts/validate_aws.py`.

The script runs five read-only validation checks against AWS (credentials,
CloudFormation stack, S3 bucket, IAM role, OIDC provider), prints each
result, and derives a process exit code.  Every boto3 call the script makes
is modelled by a field of `AwsEnv` holding either the successful response
payload (exactly the parts the script reads) or the raised error; the five
`validate_*` functions and `main` are translated line by line.
-/

/-- Python's `in` operator on strings: `pyIn needle haystack` is `true` iff
`needle` occurs as a contiguous substring of `haystack`. -/
def pyIn (needle haystack : String) : Bool :=
  decide (needle.data <:+: haystack.data)

/-- Python's `str()` rendering of a `bool` (`True` / `False`), as produced by
an f-string such as `f"Public Access Blocked: {public_blocked}"`. -/
def pyBool (b : Bool) : String :=
  if b then "True" else "False"

/-- Insertion into an association list with Python-dict semantics: an existing
key keeps its position and receives the new value, a new key is appended. -/
def dictInsert (d : List (String × String)) (k v : String) : List (String × String) :=
  if d.any (fun p => p.1 == k) then
    d.map (fun p => if p.1 == k then (p.1, v) else p)
  else
    d ++ [(k, v)]

/-- The Python dict comprehension `{o["OutputKey"]: o["OutputValue"] for o in outputs}`,
read back in insertion order (Python dicts preserve it). -/
def dictOfList (l : List (String × String)) : List (String × String) :=
  l.foldl (fun d kv => dictInsert d kv.1 kv.2) []

/-- Result of a validation check (`class ValidationResult(NamedTuple)`). -/
structure ValidationResult where
  passed : Bool
  message : String
  details : Option String := none
deriving Repr, DecidableEq

/-- A `botocore` `ClientError` as the bucket check observes it: the error code
read from `e.response.get("Error", {}).get("Code", "")` and the text `str(e)`. -/
structure ClientErrorInfo where
  code : String
  text : String
deriving Repr, DecidableEq

/-- Successful `sts.get_caller_identity()` payload (the fields the script reads). -/
structure CallerIdentity where
  account : String
  arn : String
deriving Repr, DecidableEq

/-- The two exception kinds caught by `validate_aws_credentials`:
`NoCredentialsError`, and `ClientError` (carrying `str(e)`). -/
inductive CredError where
  | noCredentials
  | clientError (text : String)
deriving Repr, DecidableEq

/-- The first stack of a successful `cfn.describe_stacks` response:
its `StackStatus` and its `Outputs` as `(OutputKey, OutputValue)` pairs
in response order. -/
structure StackInfo where
  stackStatus : String
  outputs : List (String × String)
deriving Repr, DecidableEq

/-- `PublicAccessBlockConfiguration` from `get_public_access_block`; a key
missing from the response dict is `none` (the script reads each flag with
`config.get(..., False)`). -/
structure PublicAccessBlockConfig where
  blockPublicAcls : Option Bool := none
  blockPublicPolicy : Option Bool := none
  ignorePublicAcls : Option Bool := none
  restrictPublicBuckets : Option Bool := none
deriving Repr, DecidableEq

/-- A trust-policy statement as the script reads it:
`stmt.get("Principal", {}).get("Federated", "")` and
`stmt.get("Condition", {}).get("StringLike", {}).get("token.actions.githubusercontent.com:sub", "")`. -/
structure TrustStatement where
  federated : String
  subCondition : String
deriving Repr, DecidableEq

/-- All provider interaction of one run.  Each field is the response (or the
raised, caught error) of the corresponding boto3 call; `sessionOk` abstracts
whether `get_session` (fed by `--profile` / `--region`) raised.  `oidcGetResp`
is the response of the single `get_open_id_connect_provider` call the script
can make (it fetches at most one ARN, the first match). -/
structure AwsEnv where
  sessionOk : Bool
  stsResp : Except CredError CallerIdentity
  cfnResp : Except String StackInfo
  headBucketResp : Except ClientErrorInfo Unit
  versioningResp : Except ClientErrorInfo (Option String)
  encryptionResp : Except ClientErrorInfo Unit
  publicAccessResp : Except ClientErrorInfo PublicAccessBlockConfig
  roleResp : Except String (List TrustStatement)
  oidcListResp : Except String (List String)
  oidcGetResp : Except String (List String)
deriving Repr

/-- The CLI options that reach the checks (argparse defaults). -/
structure Args where
  stackName : String := "github-terraform-state"
  bucketName : String := "williambrady-terraform-state-918573727633"
  roleName : String := "github-actions-portfolio-github-management"
  githubOrg : String := "williambrady"
  githubRepo : String := "portfolio-github-management"
deriving Repr, DecidableEq

/-- `validate_aws_credentials(session)`. -/
def validate_aws_credentials (env : AwsEnv) : ValidationResult :=
  match env.stsResp with
  | .ok identity =>
      { passed := true
        message := "AWS credentials are valid"
        details := some ("Account: " ++ identity.account ++ "\nARN: " ++ identity.arn) }
  | .error .noCredentials =>
      { passed := false
        message := "No AWS credentials found"
        details := some "Configure credentials via environment variables, ~/.aws/credentials, or IAM role" }
  | .error (.clientError e) =>
      { passed := false
        message := "AWS credentials are invalid"
        details := some e }

/-- The remediation details built in the stack-not-found branch of
`validate_cloudformation_stack`. -/
def stackDeployHint (stack_name : String) : String :=
  "Deploy the stack with:\n" ++
  "aws cloudformation deploy \\\n" ++
  "  --template-file cloudformation/github-oidc-terraform-state.yaml \\\n" ++
  "  --stack-name " ++ stack_name ++ " \\\n" ++
  "  --capabilities CAPABILITY_NAMED_IAM"

/-- `validate_cloudformation_stack(session, stack_name)`. -/
def validate_cloudformation_stack (env : AwsEnv) (stack_name : String) : ValidationResult :=
  match env.cfnResp with
  | .ok stack =>
      let status := stack.stackStatus
      if ["CREATE_COMPLETE", "UPDATE_COMPLETE"].contains status then
        let outputs := dictOfList stack.outputs
        let details := String.intercalate "\n" (outputs.map (fun kv => kv.1 ++ ": " ++ kv.2))
        { passed := true
          message := "Stack '" ++ stack_name ++ "' is deployed (status: " ++ status ++ ")"
          details := if details ≠ "" then some details else none }
      else
        { passed := false
          message := "Stack '" ++ stack_name ++ "' is in unexpected state: " ++ status
          details := some "Stack should be in CREATE_COMPLETE or UPDATE_COMPLETE state" }
  | .error e =>
      if pyIn "does not exist" e then
        { passed := false
          message := "Stack '" ++ stack_name ++ "' does not exist"
          details := some (stackDeployHint stack_name) }
      else
        { passed := false, message := "Error checking stack", details := some e }

/-- The `except ClientError as e` handler at the bottom of `validate_s3_bucket`
(reached by errors from `head_bucket` and `get_bucket_versioning`). -/
def s3ErrorResult (bucket_name : String) (e : ClientErrorInfo) : ValidationResult :=
  if e.code == "404" then
    { passed := false
      message := "Bucket '" ++ bucket_name ++ "' does not exist"
      details := some "Deploy the CloudFormation stack to create the bucket" }
  else if e.code == "403" then
    { passed := false
      message := "Access denied to bucket '" ++ bucket_name ++ "'"
      details := some "Check IAM permissions for s3:HeadBucket" }
  else
    { passed := false, message := "Error checking bucket", details := some e.text }

/-- The inner `try/except ClientError` around `get_bucket_encryption`:
any caught error yields `"Disabled"`. -/
def encryptionStatusOf (env : AwsEnv) : String :=
  match env.encryptionResp with
  | .ok _ => "Enabled"
  | .error _ => "Disabled"

/-- The inner `try/except ClientError` around `get_public_access_block`:
`all` of the four flags (missing key counts `False`), any caught error
yields `False`. -/
def publicBlockedOf (env : AwsEnv) : Bool :=
  match env.publicAccessResp with
  | .ok config =>
      config.blockPublicAcls.getD false &&
      config.blockPublicPolicy.getD false &&
      config.ignorePublicAcls.getD false &&
      config.restrictPublicBuckets.getD false
  | .error _ => false

/-- `validate_s3_bucket(session, bucket_name)`.  `head_bucket` and
`get_bucket_versioning` errors fall through to the outer handler
(`s3ErrorResult`); encryption and public-access-block errors are absorbed by
their inner handlers. -/
def validate_s3_bucket (env : AwsEnv) (bucket_name : String) : ValidationResult :=
  match env.headBucketResp with
  | .error e => s3ErrorResult bucket_name e
  | .ok _ =>
    match env.versioningResp with
    | .error e => s3ErrorResult bucket_name e
    | .ok status? =>
      let versioning_status := status?.getD "Disabled"
      let encryption_status := encryptionStatusOf env
      let public_blocked := publicBlockedOf env
      let details :=
        "Versioning: " ++ versioning_status ++
        "\nEncryption: " ++ encryption_status ++
        "\nPublic Access Blocked: " ++ pyBool public_blocked
      if versioning_status == "Enabled" && encryption_status == "Enabled" && public_blocked then
        { passed := true
          message := "Bucket '" ++ bucket_name ++ "' is properly configured"
          details := some details }
      else
        { passed := false
          message := "Bucket '" ++ bucket_name ++ "' exists but may not be properly configured"
          details := some details }

/-- The subject pattern `f"repo:{github_org}/{github_repo}:"` checked by
`validate_iam_role`. -/
def repoPattern (github_org github_repo : String) : String :=
  "repo:" ++ github_org ++ "/" ++ github_repo ++ ":"

/-- The statement loop of `validate_iam_role`, accumulating
`(has_oidc, correct_repo)`: `has_oidc` is set whenever a statement's
`Federated` principal contains the issuer hostname, and within such a
statement `correct_repo` is set when the `StringLike` subject condition
contains the repo pattern. -/
def roleScan (github_org github_repo : String) (statements : List TrustStatement) :
    Bool × Bool :=
  statements.foldl
    (fun acc stmt =>
      if pyIn "token.actions.githubusercontent.com" stmt.federated then
        (true, acc.2 || pyIn (repoPattern github_org github_repo) stmt.subCondition)
      else acc)
    (false, false)

/-- `validate_iam_role(session, role_name, github_org, github_repo)`. -/
def validate_iam_role (env : AwsEnv) (role_name github_org github_repo : String) :
    ValidationResult :=
  match env.roleResp with
  | .ok statements =>
      let scan := roleScan github_org github_repo statements
      if scan.1 && scan.2 then
        { passed := true
          message := "Role '" ++ role_name ++ "' is properly configured"
          details := some ("Trust policy allows: " ++ github_org ++ "/" ++ github_repo) }
      else if scan.1 then
        { passed := false
          message := "Role '" ++ role_name ++ "' exists but trust policy may be incorrect"
          details := some ("Expected repo: " ++ github_org ++ "/" ++ github_repo) }
      else
        { passed := false
          message := "Role '" ++ role_name ++ "' does not have OIDC trust policy"
          details := some "Role should trust token.actions.githubusercontent.com" }
  | .error e =>
      if pyIn "NoSuchEntity" e then
        { passed := false
          message := "Role '" ++ role_name ++ "' does not exist"
          details := some "Deploy the CloudFormation stack to create the role" }
      else
        { passed := false, message := "Error checking role", details := some e }

/-- `validate_oidc_provider(session)`.  The `for`/`break` scan over
`OpenIDConnectProviderList` is the first ARN containing the issuer hostname. -/
def validate_oidc_provider (env : AwsEnv) : ValidationResult :=
  match env.oidcListResp with
  | .error e =>
      { passed := false, message := "Error checking OIDC provider", details := some e }
  | .ok arns =>
      match arns.find? (fun arn => pyIn "token.actions.githubusercontent.com" arn) with
      | some github_provider =>
          match env.oidcGetResp with
          | .error e =>
              { passed := false, message := "Error checking OIDC provider", details := some e }
          | .ok audiences =>
              { passed := true
                message := "GitHub OIDC provider is configured"
                details := some ("ARN: " ++ github_provider ++ "\nAudiences: " ++
                  String.intercalate ", " audiences) }
      | none =>
          { passed := false
            message := "GitHub OIDC provider not found"
            details := some "Deploy the CloudFormation stack to create the OIDC provider" }

/-- What one run of `main` produces besides console text: the exit code, the
`results` list in insertion order, and the sequence of `validate_*` functions
actually invoked (in call order). -/
structure RunOutcome where
  exitCode : Nat
  results : List (String × ValidationResult)
  invoked : List String
deriving Repr, DecidableEq

namespace Script

/-- `main()`: build the session (abort with exit 1 on failure), run check 1,
abort with exit 1 if it failed, otherwise run checks 2-5, then exit 0 iff
the number of passed results equals the number of results. -/
def main (env : AwsEnv) (args : Args) : RunOutcome :=
  if env.sessionOk then
    let r1 := validate_aws_credentials env
    if r1.passed then
      let r2 := validate_cloudformation_stack env args.stackName
      let r3 := validate_s3_bucket env args.bucketName
      let r4 := validate_iam_role env args.roleName args.githubOrg args.githubRepo
      let r5 := validate_oidc_provider env
      let results := [("AWS Credentials", r1), ("CloudFormation Stack", r2),
        ("S3 Bucket", r3), ("IAM Role", r4), ("OIDC Provider", r5)]
      let passed := results.countP (fun nr => nr.2.passed)
      let total := results.length
      { exitCode := if passed == total then 0 else 1
        results := results
        invoked := ["validate_aws_credentials", "validate_cloudformation_stack",
          "validate_s3_bucket", "validate_iam_role", "validate_oidc_provider"] }
    else
      { exitCode := 1
        results := [("AWS Credentials", r1)]
        invoked := ["validate_aws_credentials"] }
  else
    { exitCode := 1, results := [], invoked := [] }

end Script

/-! ### Concrete environments used to instantiate the theorems -/

/-- A fully healthy run: every provider call succeeds with a well-configured
resource. -/
def envAllGood : AwsEnv :=
  { sessionOk := true
    stsResp := .ok ⟨"918573727633", "arn:aws:iam::918573727633:user/test"⟩
    cfnResp := .ok ⟨"CREATE_COMPLETE", [("BucketName", "b"), ("RoleArn", "r")]⟩
    headBucketResp := .ok ()
    versioningResp := .ok (some "Enabled")
    encryptionResp := .ok ()
    publicAccessResp := .ok ⟨some true, some true, some true, some true⟩
    roleResp := .ok [⟨"arn:aws:iam::1:oidc-provider/token.actions.githubusercontent.com",
      "repo:williambrady/portfolio-github-management:*"⟩]
    oidcListResp := .ok ["arn:aws:iam::1:oidc-provider/token.actions.githubusercontent.com"]
    oidcGetResp := .ok ["sts.amazonaws.com"] }

/-- Like `envAllGood` but no credentials are discoverable. -/
def envCredFail : AwsEnv :=
  { envAllGood with stsResp := .error .noCredentials }

/-! ### Facts about the embedding helpers -/

theorem pyIn_iff {s t : String} : pyIn s t = true ↔ s.data <:+: t.data := by
  unfold pyIn
  exact decide_eq_true_iff

theorem pyIn_refl (s : String) : pyIn s s = true :=
  pyIn_iff.mpr (List.infix_refl _)

theorem pyIn_append_left {s t : String} (u : String) (h : pyIn s t = true) :
    pyIn s (t ++ u) = true := by
  rw [pyIn_iff] at h ⊢
  rw [String.data_append]
  exact h.trans (List.prefix_append _ _).isInfix

theorem pyIn_append_right {s u : String} (t : String) (h : pyIn s u = true) :
    pyIn s (t ++ u) = true := by
  rw [pyIn_iff] at h ⊢
  rw [String.data_append]
  exact h.trans (List.suffix_append _ _).isInfix

theorem str_append_ne_empty {a : String} (b : String) (h : a ≠ "") :
    a ++ b ≠ "" := by
  intro hc
  apply h
  have hd := String.ext_iff.mp hc
  rw [String.data_append] at hd
  have ha : a.data = [] := (List.append_eq_nil.mp hd).1
  exact String.ext_iff.mpr ha

theorem str_append_ne_empty_right (a : String) {b : String} (h : b ≠ "") :
    a ++ b ≠ "" := by
  intro hc
  apply h
  have hd := String.ext_iff.mp hc
  rw [String.data_append] at hd
  have hb : b.data = [] := (List.append_eq_nil.mp hd).2
  exact String.ext_iff.mpr hb

theorem intercalate_go_ne_empty (s : String) (l : List String) :
    ∀ acc : String, acc ≠ "" → String.intercalate.go acc s l ≠ "" := by
  induction l with
  | nil =>
    intro acc h
    simpa [String.intercalate.go] using h
  | cons a as ih =>
    intro acc h
    simp only [String.intercalate.go]
    exact ih _ (str_append_ne_empty a (str_append_ne_empty s h))

theorem intercalate_ne_empty (s a : String) (l : List String) (h : a ≠ "") :
    String.intercalate s (a :: l) ≠ "" := by
  simp only [String.intercalate]
  exact intercalate_go_ne_empty s l a h

theorem dictOfList_foldl_nodup (l : List (String × String)) :
    ∀ d : List (String × String),
      (d.map Prod.fst ++ l.map Prod.fst).Nodup →
      l.foldl (fun d kv => dictInsert d kv.1 kv.2) d = d ++ l := by
  induction l with
  | nil =>
    intro d _
    simp
  | cons kv rest ih =>
    intro d hnd
    have hk : kv.1 ∉ d.map Prod.fst := by
      rw [List.nodup_append] at hnd
      intro hmem
      exact hnd.2.2 hmem (by simp)
    have hany : d.any (fun p => p.1 == kv.1) = false := by
      rw [Bool.eq_false_iff]
      intro hc
      rw [List.any_eq_true] at hc
      obtain ⟨p, hp, hpk⟩ := hc
      rw [beq_iff_eq] at hpk
      exact hk (hpk ▸ List.mem_map_of_mem Prod.fst hp)
    have hins : dictInsert d kv.1 kv.2 = d ++ [kv] := by
      simp [dictInsert, hany, Prod.mk.eta]
    rw [List.foldl_cons, hins, ih, List.append_assoc, List.singleton_append]
    rw [List.map_append]
    simpa [List.append_assoc] using hnd

/-- On duplicate-free output keys, the Python dict comprehension preserves
the output list exactly. -/
theorem dictOfList_nodup (l : List (String × String))
    (h : (l.map Prod.fst).Nodup) : dictOfList l = l := by
  have := dictOfList_foldl_nodup l [] (by simpa using h)
  simpa [dictOfList] using this

/-! ### Claim theorems -/

/-- Claim C1: the process exit code is always 0 or 1, and it is 0 exactly when
the number of recorded results with `passed = true` equals the total number of
recorded results and all five checks were run (five results recorded). -/
theorem c1_exit_code_iff_all_passed (env : AwsEnv) (args : Args) :
    ((Script.main env args).exitCode = 0 ∨ (Script.main env args).exitCode = 1) ∧
    ((Script.main env args).exitCode = 0 ↔
      ((Script.main env args).results.countP (fun nr => nr.2.passed) =
          (Script.main env args).results.length ∧
        (Script.main env args).results.length = 5)) := by
  cases hs : env.sessionOk
  · simp [Script.main, hs]
  · cases h1 : (validate_aws_credentials env).passed
    · simp [Script.main, hs, h1]
    · cases h2 : (validate_cloudformation_stack env args.stackName).passed <;>
      cases h3 : (validate_s3_bucket env args.bucketName).passed <;>
      cases h4 : (validate_iam_role env args.roleName args.githubOrg args.githubRepo).passed <;>
      cases h5 : (validate_oidc_provider env).passed <;>
        simp [Script.main, hs, h1, h2, h3, h4, h5, List.countP_cons, List.countP_nil]

/-- Claim C2: when check 1 (credentials) fails, checks 2-5 are never invoked,
exactly one result is recorded and the process exits non-zero; when check 1
passes, all four remaining checks are invoked. -/
theorem c2_credentials_gate (env : AwsEnv) (args : Args) (hs : env.sessionOk = true) :
    ((validate_aws_credentials env).passed = false →
      (Script.main env args).invoked = ["validate_aws_credentials"] ∧
      (Script.main env args).results = [("AWS Credentials", validate_aws_credentials env)] ∧
      (Script.main env args).exitCode = 1) ∧
    ((validate_aws_credentials env).passed = true →
      (Script.main env args).invoked =
        ["validate_aws_credentials", "validate_cloudformation_stack",
          "validate_s3_bucket", "validate_iam_role", "validate_oidc_provider"]) := by
  cases h1 : (validate_aws_credentials env).passed <;>
    simp [Script.main, hs, h1]

/-- Witness for C2: a concrete run with no discoverable credentials records
exactly the credentials result, invokes nothing else, and exits 1. -/
theorem c2_credentials_gate_witness :
    (Script.main envCredFail {}).invoked = ["validate_aws_credentials"] ∧
    (Script.main envCredFail {}).results =
      [("AWS Credentials", validate_aws_credentials envCredFail)] ∧
    (Script.main envCredFail {}).exitCode = 1 :=
  (c2_credentials_gate envCredFail {} rfl).1 (by decide)

/-- Claim C3: when the bucket-existence probe succeeds (and the versioning
lookup returns), the bucket check passes iff the versioning status is
"Enabled", the encryption status is "Enabled" (its call succeeded) and all
four public-access-block flags are true, an absent flag counting as false;
and whether passing or failing, the details report all three sub-statuses. -/
theorem c3_bucket_pass_iff (env : AwsEnv) (bucket_name : String) (vs : Option String)
    (cfg : PublicAccessBlockConfig)
    (hhead : env.headBucketResp = .ok ())
    (hver : env.versioningResp = .ok vs)
    (hpab : env.publicAccessResp = .ok cfg) :
    ((validate_s3_bucket env bucket_name).passed = true ↔
      (vs.getD "Disabled" = "Enabled" ∧
        env.encryptionResp = .ok () ∧
        cfg.blockPublicAcls.getD false = true ∧
        cfg.blockPublicPolicy.getD false = true ∧
        cfg.ignorePublicAcls.getD false = true ∧
        cfg.restrictPublicBuckets.getD false = true)) ∧
    (validate_s3_bucket env bucket_name).details =
      some ("Versioning: " ++ vs.getD "Disabled" ++
        "\nEncryption: " ++ encryptionStatusOf env ++
        "\nPublic Access Blocked: " ++ pyBool (publicBlockedOf env)) := by
  have henc : encryptionStatusOf env = "Enabled" ↔ env.encryptionResp = .ok () := by
    cases he : env.encryptionResp with
    | ok u => cases u; simp [encryptionStatusOf, he]
    | error e => simp [encryptionStatusOf, he]
  have hpb : publicBlockedOf env =
      (cfg.blockPublicAcls.getD false && cfg.blockPublicPolicy.getD false &&
        cfg.ignorePublicAcls.getD false && cfg.restrictPublicBuckets.getD false) := by
    simp [publicBlockedOf, hpab]
  constructor
  · simp only [validate_s3_bucket, hhead, hver]
    split
    · rename_i hcond
      simp only [Bool.and_eq_true, beq_iff_eq] at hcond
      simp only [true_iff]
      refine ⟨hcond.1.1, henc.mp hcond.1.2, ?_, ?_, ?_, ?_⟩ <;>
        · have := hcond.2
          rw [hpb] at this
          simp only [Bool.and_eq_true] at this
          tauto
    · rename_i hcond
      simp only [Bool.and_eq_true, beq_iff_eq, not_and] at hcond
      simp only [Bool.false_eq_true, false_iff, not_and]
      intro h1 h2 h3 h4 h5
      exact fun h6 => hcond ⟨h1, henc.mpr h2⟩ (by rw [hpb]; simp [h3, h4, h5, h6])
  · simp only [validate_s3_bucket, hhead, hver]
    split <;> rfl

/-- Witness for C3: the healthy bucket (versioning Enabled, encryption call
succeeding, all four flags set) passes. -/
theorem c3_bucket_pass_iff_witness :
    (validate_s3_bucket envAllGood "tfstate").passed = true :=
  (c3_bucket_pass_iff envAllGood "tfstate" (some "Enabled")
      ⟨some true, some true, some true, some true⟩ rfl rfl rfl).1.mpr
    ⟨rfl, rfl, rfl, rfl, rfl, rfl⟩

/-- Claim C6: in the bucket check an error from the encryption lookup is
treated as status "Disabled" and an error from the public-access-block lookup
as "not blocked"; in both cases the error is not propagated and the check
still produces a result reporting the sub-statuses. -/
theorem c6_bucket_error_defaults (env : AwsEnv) (bucket_name : String) (vs : Option String)
    (hhead : env.headBucketResp = .ok ())
    (hver : env.versioningResp = .ok vs) :
    (∀ e, env.encryptionResp = .error e →
      (validate_s3_bucket env bucket_name).passed = false ∧
      (validate_s3_bucket env bucket_name).details =
        some ("Versioning: " ++ vs.getD "Disabled" ++
          "\nEncryption: " ++ "Disabled" ++
          "\nPublic Access Blocked: " ++ pyBool (publicBlockedOf env))) ∧
    (∀ e, env.publicAccessResp = .error e →
      (validate_s3_bucket env bucket_name).passed = false ∧
      (validate_s3_bucket env bucket_name).details =
        some ("Versioning: " ++ vs.getD "Disabled" ++
          "\nEncryption: " ++ encryptionStatusOf env ++
          "\nPublic Access Blocked: " ++ "False")) := by
  constructor
  · intro e he
    have hst : encryptionStatusOf env = "Disabled" := by simp [encryptionStatusOf, he]
    constructor
    · simp only [validate_s3_bucket, hhead, hver]
      split
      · rename_i hcond
        exfalso
        simp only [Bool.and_eq_true, beq_iff_eq] at hcond
        rw [hst] at hcond
        exact absurd hcond.1.2 (by decide)
      · rfl
    · simp only [validate_s3_bucket, hhead, hver]
      split <;> simp [hst]
  · intro e he
    have hpb : publicBlockedOf env = false := by simp [publicBlockedOf, he]
    constructor
    · simp only [validate_s3_bucket, hhead, hver]
      split
      · rename_i hcond
        exfalso
        simp only [Bool.and_eq_true, beq_iff_eq] at hcond
        rw [hpb] at hcond
        exact absurd hcond.2 (by decide)
      · rfl
    · simp only [validate_s3_bucket, hhead, hver]
      split <;> simp [hpb, pyBool]

/-- A run where the encryption lookup raises. -/
def envEncryptionErr : AwsEnv :=
  { envAllGood with
    encryptionResp := .error ⟨"ServerSideEncryptionConfigurationNotFoundError",
      "An error occurred (ServerSideEncryptionConfigurationNotFoundError)"⟩ }

/-- Witness for C6: with the encryption lookup raising, the check still
reports a result whose details show "Encryption: Disabled". -/
theorem c6_bucket_error_defaults_witness :
    (validate_s3_bucket envEncryptionErr "tfstate").passed = false ∧
    (validate_s3_bucket envEncryptionErr "tfstate").details =
      some ("Versioning: " ++ (some "Enabled").getD "Disabled" ++
        "\nEncryption: " ++ "Disabled" ++
        "\nPublic Access Blocked: " ++ pyBool (publicBlockedOf envEncryptionErr)) :=
  (c6_bucket_error_defaults envEncryptionErr "tfstate" (some "Enabled") rfl rfl).1
    ⟨"ServerSideEncryptionConfigurationNotFoundError",
      "An error occurred (ServerSideEncryptionConfigurationNotFoundError)"⟩ rfl

/-- A run where the versioning lookup raises a `ClientError` carrying the
HTTP-style code "404". -/
def envVersioning404 : AwsEnv :=
  { envAllGood with
    versioningResp := .error ⟨"404",
      "An error occurred (404) when calling the GetBucketVersioning operation"⟩ }

/-- Counterexample to C9 as stated: a versioning-lookup error does reach the
outer handler, but when it carries code "404" the check reports the
bucket-does-not-exist result, not the generic "Error checking bucket" one. -/
theorem c9_counterexample :
    (validate_s3_bucket envVersioning404 "tfstate").message =
      "Bucket 'tfstate' does not exist" ∧
    ((validate_s3_bucket envVersioning404 "tfstate").message =
      "Error checking bucket" → False) := by
  constructor
  · decide
  · decide

/-- Claim C9 (amended): a versioning-lookup error is not defaulted to
"Disabled": it falls into the outer `ClientError` handler, so no sub-status
details are reported; the result is the generic "Error checking bucket" one
whenever the error code is neither "404" nor "403" (those two codes yield the
bucket-not-found and access-denied results instead). -/
theorem c9_versioning_error_propagates (env : AwsEnv) (bucket_name : String)
    (e : ClientErrorInfo)
    (hhead : env.headBucketResp = .ok ())
    (hver : env.versioningResp = .error e) :
    validate_s3_bucket env bucket_name = s3ErrorResult bucket_name e ∧
    (validate_s3_bucket env bucket_name).passed = false ∧
    (e.code ≠ "404" → e.code ≠ "403" →
      (validate_s3_bucket env bucket_name).message = "Error checking bucket" ∧
      (validate_s3_bucket env bucket_name).details = some e.text) := by
  have h0 : validate_s3_bucket env bucket_name = s3ErrorResult bucket_name e := by
    simp [validate_s3_bucket, hhead, hver]
  refine ⟨h0, ?_, ?_⟩
  · rw [h0]
    unfold s3ErrorResult
    split
    · rfl
    · split <;> rfl
  · intro h4 h3
    rw [h0]
    have hc4 : (e.code == "404") = false := by
      simpa using h4
    have hc3 : (e.code == "403") = false := by
      simpa using h3
    unfold s3ErrorResult
    rw [hc4, hc3]
    exact ⟨rfl, rfl⟩

/-- A run where the versioning lookup raises with a non-404/403 code. -/
def envVersioningDenied : AwsEnv :=
  { envAllGood with
    versioningResp := .error ⟨"AccessDenied", "An error occurred (AccessDenied)"⟩ }

/-- Witness for the amended C9: a versioning error with code "AccessDenied"
yields the generic error result, with `str(e)` as details. -/
theorem c9_versioning_error_propagates_witness :
    (validate_s3_bucket envVersioningDenied "tfstate").message =
      "Error checking bucket" ∧
    (validate_s3_bucket envVersioningDenied "tfstate").details =
      some "An error occurred (AccessDenied)" :=
  (c9_versioning_error_propagates envVersioningDenied "tfstate"
      ⟨"AccessDenied", "An error occurred (AccessDenied)"⟩ rfl rfl).2.2
    (by decide) (by decide)

/-- Claim C5: the stack check passes iff the looked-up stack's status is
CREATE_COMPLETE or UPDATE_COMPLETE, rendering the exported outputs as
`key: value` lines; any other status fails with the actual status named in
the message; a stack-not-found error fails with a remediation deploy command
in which the stack name is substituted. -/
theorem c5_stack_check (env : AwsEnv) (stack_name : String) :
    (∀ stack, env.cfnResp = .ok stack →
      ((validate_cloudformation_stack env stack_name).passed = true ↔
        (stack.stackStatus = "CREATE_COMPLETE" ∨ stack.stackStatus = "UPDATE_COMPLETE")) ∧
      ((stack.outputs.map Prod.fst).Nodup → stack.outputs ≠ [] →
        (validate_cloudformation_stack env stack_name).passed = true →
        (validate_cloudformation_stack env stack_name).details =
          some (String.intercalate "\n"
            (stack.outputs.map (fun kv => kv.1 ++ ": " ++ kv.2)))) ∧
      ((validate_cloudformation_stack env stack_name).passed = false →
        pyIn stack.stackStatus (validate_cloudformation_stack env stack_name).message = true)) ∧
    (∀ e, env.cfnResp = .error e → pyIn "does not exist" e = true →
      (validate_cloudformation_stack env stack_name).passed = false ∧
      (validate_cloudformation_stack env stack_name).details =
        some (stackDeployHint stack_name) ∧
      pyIn "aws cloudformation deploy" (stackDeployHint stack_name) = true ∧
      pyIn ("--stack-name " ++ stack_name) (stackDeployHint stack_name) = true) := by
  constructor
  · intro stack hok
    by_cases hw : stack.stackStatus = "CREATE_COMPLETE" ∨ stack.stackStatus = "UPDATE_COMPLETE"
    · refine ⟨by rcases hw with h1 | h1 <;> simp [validate_cloudformation_stack, hok, h1], ?_, ?_⟩
      · intro hnd hne _
        obtain ⟨kv, rest, hl⟩ : ∃ kv rest, stack.outputs = kv :: rest := by
          cases hx : stack.outputs with
          | nil => exact absurd hx hne
          | cons kv rest => exact ⟨kv, rest, rfl⟩
        have hdict : dictOfList stack.outputs = stack.outputs := dictOfList_nodup _ hnd
        have hne2 : String.intercalate "\n"
            (stack.outputs.map (fun kv => kv.1 ++ ": " ++ kv.2)) ≠ "" := by
          rw [hl, List.map_cons]
          exact intercalate_ne_empty _ _ _
            (str_append_ne_empty kv.2 (str_append_ne_empty_right kv.1 (by decide)))
        rcases hw with h1 | h1 <;>
          simp [validate_cloudformation_stack, hok, h1, hdict, hne2]
      · intro hfail
        exfalso
        have hp : (validate_cloudformation_stack env stack_name).passed = true := by
          rcases hw with h1 | h1 <;> simp [validate_cloudformation_stack, hok, h1]
        rw [hp] at hfail
        cases hfail
    · refine ⟨by simp [validate_cloudformation_stack, hok, hw], ?_, ?_⟩
      · intro _ _ hpass
        exfalso
        have hp : (validate_cloudformation_stack env stack_name).passed = false := by
          simp [validate_cloudformation_stack, hok, hw]
        rw [hp] at hpass
        cases hpass
      · intro _
        have hmsg : (validate_cloudformation_stack env stack_name).message =
            ("Stack '" ++ stack_name ++ "' is in unexpected state: ") ++ stack.stackStatus := by
          simp [validate_cloudformation_stack, hok, hw, String.append_assoc]
        rw [hmsg]
        exact pyIn_append_right _ (pyIn_refl _)
  · intro e hok hin
    have hsplit : ("  --stack-name " : String) = "  " ++ "--stack-name " := by decide
    refine ⟨by simp [validate_cloudformation_stack, hok, hin],
      by simp [validate_cloudformation_stack, hok, hin], ?_, ?_⟩
    · simp only [stackDeployHint]
      exact pyIn_append_left _ (pyIn_append_left _ (pyIn_append_left _
        (pyIn_append_left _ (pyIn_append_left _ (pyIn_append_right _ (by decide))))))
    · simp only [stackDeployHint]
      rw [hsplit]
      refine pyIn_iff.mpr
        ⟨("Deploy the stack with:\n" ++ ("aws cloudformation deploy \\\n" ++
            ("  --template-file cloudformation/github-oidc-terraform-state.yaml \\\n" ++
              "  "))).data,
          (" \\\n" ++ "  --capabilities CAPABILITY_NAMED_IAM").data, ?_⟩
      simp [String.data_append, List.append_assoc]

/-- A run where `describe_stacks` raises with a does-not-exist message. -/
def envStackMissing : AwsEnv :=
  { envAllGood with
    cfnResp := .error "Stack with id github-terraform-state does not exist" }

set_option maxRecDepth 20000 in
/-- Witness for C5: the stack-not-found branch at a concrete run; the details
carry the deploy command with the stack name substituted. -/
theorem c5_stack_check_witness :
    (validate_cloudformation_stack envStackMissing "github-terraform-state").passed = false ∧
    (validate_cloudformation_stack envStackMissing "github-terraform-state").details =
      some (stackDeployHint "github-terraform-state") ∧
    pyIn "aws cloudformation deploy" (stackDeployHint "github-terraform-state") = true ∧
    pyIn ("--stack-name " ++ "github-terraform-state")
      (stackDeployHint "github-terraform-state") = true :=
  (c5_stack_check envStackMissing "github-terraform-state").2 _ rfl (by decide)

/-- Claim C10: a passing stack check with no exported outputs carries
`details = none` rather than an empty string. -/
theorem c10_no_outputs_details_none (env : AwsEnv) (stack_name : String) (stack : StackInfo)
    (h : env.cfnResp = .ok stack)
    (hst : stack.stackStatus = "CREATE_COMPLETE" ∨ stack.stackStatus = "UPDATE_COMPLETE")
    (hout : stack.outputs = []) :
    (validate_cloudformation_stack env stack_name).passed = true ∧
    (validate_cloudformation_stack env stack_name).details = none := by
  rcases hst with h1 | h1 <;>
    simp [validate_cloudformation_stack, h, h1, hout, dictOfList, String.intercalate]

/-- The `for` loop of `validate_iam_role`, characterised: `has_oidc` is true
iff some statement's `Federated` principal contains the issuer hostname, and
`correct_repo` is true iff some such statement's subject condition contains
the repo pattern. -/
theorem roleScan_eq (github_org github_repo : String) (stmts : List TrustStatement) :
    roleScan github_org github_repo stmts =
      (stmts.any (fun s => pyIn "token.actions.githubusercontent.com" s.federated),
       stmts.any (fun s => pyIn "token.actions.githubusercontent.com" s.federated &&
         pyIn (repoPattern github_org github_repo) s.subCondition)) := by
  have haux : ∀ (l : List TrustStatement) (a b : Bool),
      l.foldl (fun acc stmt =>
        if pyIn "token.actions.githubusercontent.com" stmt.federated then
          (true, acc.2 || pyIn (repoPattern github_org github_repo) stmt.subCondition)
        else acc) (a, b) =
      (a || l.any (fun s => pyIn "token.actions.githubusercontent.com" s.federated),
       b || l.any (fun s => pyIn "token.actions.githubusercontent.com" s.federated &&
         pyIn (repoPattern github_org github_repo) s.subCondition)) := by
    intro l
    induction l with
    | nil => intro a b; simp
    | cons s rest ih =>
      intro a b
      cases hf : pyIn "token.actions.githubusercontent.com" s.federated <;>
        simp [List.foldl_cons, List.any_cons, hf, ih, Bool.or_assoc]
  simpa [roleScan] using haux stmts false false

/-- A run whose role trust policy embeds the repo pattern at a non-prefix
position of the subject condition. -/
def envWrongAnchor : AwsEnv :=
  { envAllGood with
    roleResp := .ok [⟨"token.actions.githubusercontent.com", "xrepo:o/r:*"⟩] }

set_option maxRecDepth 40000 in
/-- Counterexample to C4 as stated: the role check passes for a trust policy
whose only statement has subject condition "xrepo:o/r:*", in which
`repo:o/r:` occurs but not as a prefix pattern — the code tests substring
containment, not prefix matching. -/
theorem c4_role_counterexample :
    (validate_iam_role envWrongAnchor "github-actions" "o" "r").passed = true ∧
    ((repoPattern "o" "r").data <+: ("xrepo:o/r:*" : String).data → False) := by
  constructor
  · decide
  · decide

/-- Claim C4 (amended): the role check has a three-way outcome driven by
substring containment: a statement whose `Federated` principal contains the
issuer hostname and whose `StringLike` subject condition contains
`repo:{org}/{repo}:` as a substring (not necessarily as a prefix) → pass
with details naming the allowed org/repo; a federated-matching statement but
no containing subject condition → fail with the misconfigured-trust message;
no federated-matching statement → fail with the no-OIDC-trust message. -/
theorem c4_role_trust_three_way (env : AwsEnv)
    (role_name github_org github_repo : String)
    (stmts : List TrustStatement) (h : env.roleResp = .ok stmts) :
    ((∃ s ∈ stmts, pyIn "token.actions.githubusercontent.com" s.federated = true ∧
        pyIn (repoPattern github_org github_repo) s.subCondition = true) →
      (validate_iam_role env role_name github_org github_repo).passed = true ∧
      (validate_iam_role env role_name github_org github_repo).details =
        some ("Trust policy allows: " ++ github_org ++ "/" ++ github_repo)) ∧
    (((∃ s ∈ stmts, pyIn "token.actions.githubusercontent.com" s.federated = true) ∧
        ¬ (∃ s ∈ stmts, pyIn "token.actions.githubusercontent.com" s.federated = true ∧
          pyIn (repoPattern github_org github_repo) s.subCondition = true)) →
      (validate_iam_role env role_name github_org github_repo).passed = false ∧
      (validate_iam_role env role_name github_org github_repo).message =
        "Role '" ++ role_name ++ "' exists but trust policy may be incorrect") ∧
    ((¬ ∃ s ∈ stmts, pyIn "token.actions.githubusercontent.com" s.federated = true) →
      (validate_iam_role env role_name github_org github_repo).passed = false ∧
      (validate_iam_role env role_name github_org github_repo).message =
        "Role '" ++ role_name ++ "' does not have OIDC trust policy") := by
  refine ⟨?_, ?_, ?_⟩
  · intro hex
    have hB : stmts.any (fun s => pyIn "token.actions.githubusercontent.com" s.federated &&
        pyIn (repoPattern github_org github_repo) s.subCondition) = true := by
      rw [List.any_eq_true]
      obtain ⟨s, hs, hf, hc⟩ := hex
      exact ⟨s, hs, by rw [Bool.and_eq_true]; exact ⟨hf, hc⟩⟩
    have hA : stmts.any (fun s =>
        pyIn "token.actions.githubusercontent.com" s.federated) = true := by
      rw [List.any_eq_true] at hB ⊢
      obtain ⟨s, hs, hss⟩ := hB
      rw [Bool.and_eq_true] at hss
      exact ⟨s, hs, hss.1⟩
    simp [validate_iam_role, h, roleScan_eq, hA, hB]
  · intro hmix
    obtain ⟨hfed, hnot⟩ := hmix
    have hA : stmts.any (fun s =>
        pyIn "token.actions.githubusercontent.com" s.federated) = true := by
      rw [List.any_eq_true]
      obtain ⟨s, hs, hf⟩ := hfed
      exact ⟨s, hs, hf⟩
    have hB : stmts.any (fun s => pyIn "token.actions.githubusercontent.com" s.federated &&
        pyIn (repoPattern github_org github_repo) s.subCondition) = false := by
      rw [Bool.eq_false_iff]
      intro hc
      apply hnot
      rw [List.any_eq_true] at hc
      obtain ⟨s, hs, hss⟩ := hc
      rw [Bool.and_eq_true] at hss
      exact ⟨s, hs, hss.1, hss.2⟩
    simp [validate_iam_role, h, roleScan_eq, hA, hB]
  · intro hnone
    have hA : stmts.any (fun s =>
        pyIn "token.actions.githubusercontent.com" s.federated) = false := by
      rw [Bool.eq_false_iff]
      intro hc
      rw [List.any_eq_true] at hc
      exact hnone hc
    simp [validate_iam_role, h, roleScan_eq, hA]

set_option maxRecDepth 40000 in
/-- Witness for the amended C4: the healthy trust policy (issuer in the
federated ARN, subject condition containing the repo pattern) passes with the
allowed org/repo in the details. -/
theorem c4_role_trust_three_way_witness :
    (validate_iam_role envAllGood "github-actions-portfolio-github-management"
      "williambrady" "portfolio-github-management").passed = true ∧
    (validate_iam_role envAllGood "github-actions-portfolio-github-management"
      "williambrady" "portfolio-github-management").details =
      some ("Trust policy allows: " ++ "williambrady" ++ "/" ++ "portfolio-github-management") :=
  (c4_role_trust_three_way envAllGood "github-actions-portfolio-github-management"
      "williambrady" "portfolio-github-management"
      [⟨"arn:aws:iam::1:oidc-provider/token.actions.githubusercontent.com",
        "repo:williambrady/portfolio-github-management:*"⟩] rfl).1
    ⟨⟨"arn:aws:iam::1:oidc-provider/token.actions.githubusercontent.com",
        "repo:williambrady/portfolio-github-management:*"⟩,
      by decide, by decide, by decide⟩

/-- A run whose stack is freshly updated and exports nothing. -/
def envStackNoOutputs : AwsEnv :=
  { envAllGood with cfnResp := .ok ⟨"UPDATE_COMPLETE", []⟩ }

/-- Witness for C10: a concrete passing, output-less stack yields no details. -/
theorem c10_no_outputs_details_none_witness :
    (validate_cloudformation_stack envStackNoOutputs "github-terraform-state").passed = true ∧
    (validate_cloudformation_stack envStackNoOutputs "github-terraform-state").details = none :=
  c10_no_outputs_details_none envStackNoOutputs "github-terraform-state"
    ⟨"UPDATE_COMPLETE", []⟩ rfl (Or.inr rfl) rfl

/-- Claim C7: every provider error is converted into a failed
`ValidationResult` with a (nonempty) human-readable message — no error
escapes to the process boundary — and the only early aborts are the
deliberate ones: no results when session construction fails, exactly one
result when the credentials check fails, five results otherwise, with the
exit code always 0 or 1. -/
theorem c7_errors_contained (env : AwsEnv) (args : Args) :
    (validate_aws_credentials env).message ≠ "" ∧
    (validate_cloudformation_stack env args.stackName).message ≠ "" ∧
    (validate_s3_bucket env args.bucketName).message ≠ "" ∧
    (validate_iam_role env args.roleName args.githubOrg args.githubRepo).message ≠ "" ∧
    (validate_oidc_provider env).message ≠ "" ∧
    (∀ e, env.stsResp = .error e →
      (validate_aws_credentials env).passed = false) ∧
    (∀ e, env.cfnResp = .error e →
      (validate_cloudformation_stack env args.stackName).passed = false) ∧
    (∀ e, env.headBucketResp = .error e →
      (validate_s3_bucket env args.bucketName).passed = false) ∧
    (∀ e, env.roleResp = .error e →
      (validate_iam_role env args.roleName args.githubOrg args.githubRepo).passed = false) ∧
    (∀ e, env.oidcListResp = .error e →
      (validate_oidc_provider env).passed = false) ∧
    ((Script.main env args).exitCode = 0 ∨ (Script.main env args).exitCode = 1) ∧
    ((Script.main env args).results.length = 0 ↔ env.sessionOk = false) ∧
    ((Script.main env args).results.length = 1 ↔
      (env.sessionOk = true ∧ (validate_aws_credentials env).passed = false)) := by
  have hq : ("Stack '" : String) ≠ "" := by decide
  have hb : ("Bucket '" : String) ≠ "" := by decide
  have ha : ("Access denied to bucket '" : String) ≠ "" := by decide
  have hr : ("Role '" : String) ≠ "" := by decide
  refine ⟨?_, ?_, ?_, ?_, ?_, ?_, ?_, ?_, ?_, ?_, ?_, ?_, ?_⟩
  · cases hs : env.stsResp with
    | ok i =>
      simp only [validate_aws_credentials, hs]
      exact (by decide : ("AWS credentials are valid" : String) ≠ "")
    | error ce =>
      cases ce with
      | noCredentials =>
        simp only [validate_aws_credentials, hs]
        exact (by decide : ("No AWS credentials found" : String) ≠ "")
      | clientError t =>
        simp only [validate_aws_credentials, hs]
        exact (by decide : ("AWS credentials are invalid" : String) ≠ "")
  · cases hc : env.cfnResp with
    | ok stack =>
      simp only [validate_cloudformation_stack, hc]
      split
      · exact str_append_ne_empty _
          (str_append_ne_empty _ (str_append_ne_empty _ (str_append_ne_empty _ hq)))
      · exact str_append_ne_empty _ (str_append_ne_empty _ (str_append_ne_empty _ hq))
    | error e =>
      simp only [validate_cloudformation_stack, hc]
      split
      · exact str_append_ne_empty _ (str_append_ne_empty _ hq)
      · exact (by decide : ("Error checking stack" : String) ≠ "")
  · have hbucket : ∀ e, (s3ErrorResult args.bucketName e).message ≠ "" := by
      intro e
      unfold s3ErrorResult
      split
      · exact str_append_ne_empty _ (str_append_ne_empty _ hb)
      · split
        · exact str_append_ne_empty _ (str_append_ne_empty _ ha)
        · exact (by decide : ("Error checking bucket" : String) ≠ "")
    cases hh : env.headBucketResp with
    | error e =>
      simp only [validate_s3_bucket, hh]
      exact hbucket e
    | ok u =>
      cases u
      cases hv : env.versioningResp with
      | error e =>
        simp only [validate_s3_bucket, hh, hv]
        exact hbucket e
      | ok vs =>
        simp only [validate_s3_bucket, hh, hv]
        split
        · exact str_append_ne_empty _ (str_append_ne_empty _ hb)
        · exact str_append_ne_empty _ (str_append_ne_empty _ hb)
  · cases hro : env.roleResp with
    | ok stmts =>
      simp only [validate_iam_role, hro]
      split
      · exact str_append_ne_empty _ (str_append_ne_empty _ hr)
      · split
        · exact str_append_ne_empty _ (str_append_ne_empty _ hr)
        · exact str_append_ne_empty _ (str_append_ne_empty _ hr)
    | error e =>
      simp only [validate_iam_role, hro]
      split
      · exact str_append_ne_empty _ (str_append_ne_empty _ hr)
      · exact (by decide : ("Error checking role" : String) ≠ "")
  · cases ho : env.oidcListResp with
    | error e =>
      simp only [validate_oidc_provider, ho]
      exact (by decide : ("Error checking OIDC provider" : String) ≠ "")
    | ok arns =>
      simp only [validate_oidc_provider, ho]
      cases hf : arns.find? (fun arn =>
          pyIn "token.actions.githubusercontent.com" arn) with
      | none =>
        exact (by decide : ("GitHub OIDC provider not found" : String) ≠ "")
      | some arn =>
        cases hg : env.oidcGetResp with
        | error e =>
          exact (by decide : ("Error checking OIDC provider" : String) ≠ "")
        | ok auds =>
          exact (by decide : ("GitHub OIDC provider is configured" : String) ≠ "")
  · intro e he
    cases e with
    | noCredentials => simp [validate_aws_credentials, he]
    | clientError t => simp [validate_aws_credentials, he]
  · intro e he
    simp only [validate_cloudformation_stack, he]
    split <;> rfl
  · intro e he
    simp only [validate_s3_bucket, he]
    unfold s3ErrorResult
    split
    · rfl
    · split <;> rfl
  · intro e he
    simp only [validate_iam_role, he]
    split <;> rfl
  · intro e he
    simp [validate_oidc_provider, he]
  · cases hs : env.sessionOk
    · simp [Script.main, hs]
    · cases h1 : (validate_aws_credentials env).passed
      · simp [Script.main, hs, h1]
      · simp only [Script.main, hs, h1, if_true]
        split <;> simp
  · cases hs : env.sessionOk
    · simp [Script.main, hs]
    · cases h1 : (validate_aws_credentials env).passed <;> simp [Script.main, hs, h1]
  · cases hs : env.sessionOk
    · simp [Script.main, hs]
    · cases h1 : (validate_aws_credentials env).passed <;> simp [Script.main, hs, h1]

/-- Witness for C7: a run whose `describe_stacks` call raises yields a failed
(but recorded) stack result. -/
theorem c7_errors_contained_witness :
    (validate_cloudformation_stack envStackMissing ({} : Args).stackName).passed = false :=
  (c7_errors_contained envStackMissing {}).2.2.2.2.2.2.1
    "Stack with id github-terraform-state does not exist" rfl

/-- Like `envAllGood` but with session construction failing; the provider
responses themselves are identical. -/
def envAllGoodNoSession : AwsEnv :=
  { envAllGood with sessionOk := false }

/-- Claim C8: each of the five check functions is a pure function of the
provider responses it reads: two environments that agree on those responses
(whatever else differs, e.g. the session state) produce identical
`ValidationResult`s — passed flag, message and details alike. -/
theorem c8_checks_pure (env1 env2 : AwsEnv)
    (stack_name bucket_name role_name github_org github_repo : String)
    (h1 : env1.stsResp = env2.stsResp)
    (h2 : env1.cfnResp = env2.cfnResp)
    (h3 : env1.headBucketResp = env2.headBucketResp)
    (h4 : env1.versioningResp = env2.versioningResp)
    (h5 : env1.encryptionResp = env2.encryptionResp)
    (h6 : env1.publicAccessResp = env2.publicAccessResp)
    (h7 : env1.roleResp = env2.roleResp)
    (h8 : env1.oidcListResp = env2.oidcListResp)
    (h9 : env1.oidcGetResp = env2.oidcGetResp) :
    validate_aws_credentials env1 = validate_aws_credentials env2 ∧
    validate_cloudformation_stack env1 stack_name =
      validate_cloudformation_stack env2 stack_name ∧
    validate_s3_bucket env1 bucket_name = validate_s3_bucket env2 bucket_name ∧
    validate_iam_role env1 role_name github_org github_repo =
      validate_iam_role env2 role_name github_org github_repo ∧
    validate_oidc_provider env1 = validate_oidc_provider env2 := by
  refine ⟨?_, ?_, ?_, ?_, ?_⟩
  · unfold validate_aws_credentials
    rw [h1]
  · unfold validate_cloudformation_stack
    rw [h2]
  · unfold validate_s3_bucket encryptionStatusOf publicBlockedOf
    rw [h3, h4, h5, h6]
  · unfold validate_iam_role
    rw [h7]
  · unfold validate_oidc_provider
    rw [h8, h9]

/-- Witness for C8: the healthy run and its session-less twin agree on all
provider responses, hence on every check result. -/
theorem c8_checks_pure_witness :
    validate_aws_credentials envAllGood = validate_aws_credentials envAllGoodNoSession ∧
    validate_cloudformation_stack envAllGood "s" =
      validate_cloudformation_stack envAllGoodNoSession "s" ∧
    validate_s3_bucket envAllGood "b" = validate_s3_bucket envAllGoodNoSession "b" ∧
    validate_iam_role envAllGood "r" "o" "g" =
      validate_iam_role envAllGoodNoSession "r" "o" "g" ∧
    validate_oidc_provider envAllGood = validate_oidc_provider envAllGoodNoSession :=
  c8_checks_pure envAllGood envAllGoodNoSession "s" "b" "r" "o" "g"
    rfl rfl rfl rfl rfl rfl rfl rfl rfl
